import Mathlib

/-!
Shallow embedding of the transmission_go_api Go package (file
transmission_go_api.go): a Transmission RPC client with a single-retry
session-token handshake, a torrent-listing call and identifier-based
lifecycle calls.

Modelling conventions:
- Go pointers become Option; a nil-pointer dereference becomes the
  Outcome.panic result.
- Machine integers (int, int64) become Int; float64 fields only carry
  JSON numbers and are never computed with, so they are modelled exactly
  as Rat.
- The HTTP transport, request construction and body reading are
  abstracted into an environment record Env; the JSON text of a response
  body is abstracted to an already-parsed Json value (readBody models
  ioutil.ReadAll composed with textual JSON parsing; the typed decoding
  of that value into a response struct is modelled concretely).
- fmt.Errorf applied to a non-constant string with no operands is
  modelled by fmtNoArgs, which reproduces the format-directive expansion
  fmt performs on the Go side (verbs with no operands render as
  MISSING/NOVERB markers). Star widths, which consume operands, are not
  modelled; no claim touches them.
-/

set_option autoImplicit false

namespace TransmissionGoApi

/-- Parsed JSON values. Numbers are modelled exactly as rationals. -/
inductive Json where
  | null : Json
  | bool : Bool → Json
  | num : Rat → Json
  | str : String → Json
  | arr : List Json → Json
  | obj : List (String × Json) → Json

/-- Go map lookup with ok flag: first binding of the key, if any. -/
def lookupHeader (hs : List (String × List String)) (k : String) : Option (List String) :=
  match hs with
  | [] => none
  | (k₀, v₀) :: rest => if k₀ = k then some v₀ else lookupHeader rest k

/-- Go map assignment: replace the first binding of the key, or append one. -/
def setHeader (hs : List (String × List String)) (k : String) (v : List String) :
    List (String × List String) :=
  match hs with
  | [] => [(k, v)]
  | (k₀, v₀) :: rest => if k₀ = k then (k₀, v) :: rest else (k₀, v₀) :: setHeader rest k v

/-- An outgoing HTTP request (http.Request as used by postRequest).
SetBasicAuth is modelled as recording the credential pair. -/
structure HttpRequest where
  method : String
  url : String
  body : String
  headers : List (String × List String)
  basicAuth : Option (String × String)

/-- An incoming HTTP response; the body is kept as parsed JSON. -/
structure HttpResponse where
  statusCode : Int
  headers : List (String × List String)
  body : Json

/-- The session header name from the source constant csrfSessionHeader. -/
def csrfSessionHeader : String := "X-Transmission-Session-Id"

/-- strings.HasPrefix, via the underlying character list. -/
def goHasPre (s pre : String) : Bool := pre.data.isPrefixOf s.data

/-- strings.HasSuffix, via the underlying character list. -/
def goHasSuf (s suf : String) : Bool := suf.data.isSuffixOf s.data

/-- The client state (struct Transmission): address, credentials and the
mutable session token. -/
structure Transmission where
  address : String
  username : String
  password : String
  sessionId : String

/-- Constructor New: prepend the http scheme when the address does not
start with "http", append the fixed RPC path when it does not end with
"/transmission/rpc"; never fails. The zero value of the sessionId field
is the empty string. -/
def New (address username password : String) : Except String Transmission :=
  let address := if ¬ goHasPre address "http" then "http://" ++ address else address
  let address :=
    if ¬ goHasSuf address "/transmission/rpc" then address ++ "/transmission/rpc" else address
  .ok { address := address, username := username, password := password, sessionId := "" }

/-! ### fmt.Errorf with no operands

The source reports daemon errors with fmt.Errorf(resp.Result): the
daemon-supplied string is used as a format string with zero operands.
fmtNoArgs models that expansion. -/

/-- Format flag characters recognised by fmt. -/
def isFmtFlag (c : Char) : Bool :=
  c = '#' || c = '0' || c = '+' || c = '-' || c = ' '

/-- Skip an optional precision: a dot followed by digits. -/
def dropFmtPrec (l : List Char) : List Char :=
  match l with
  | [] => []
  | c :: r => if c = '.' then r.dropWhile Char.isDigit else c :: r

/-- Skip the flags, width and precision of a format directive. -/
def dropFmtSpec (l : List Char) : List Char :=
  dropFmtPrec ((l.dropWhile isFmtFlag).dropWhile Char.isDigit)

/-- Expansion fmt performs on a format string given zero operands, with
a fuel argument for structural recursion: text is copied, a directive
whose verb is the percent character yields a literal percent, a
directive cut off by the end of the string yields the NOVERB marker, and
any other verb yields the MISSING marker for that verb. Progress
consumes at least one character per step, so fuel equal to the length of
the list never runs out. -/
def fmtNoArgsAux (fuel : Nat) (l : List Char) : List Char :=
  match fuel, l with
  | _, [] => []
  | 0, _ => []
  | fuel + 1, c :: rest =>
    if c = '%' then
      match dropFmtSpec rest with
      | [] => "%!(NOVERB)".data
      | v :: tail =>
        if v = '%' then '%' :: fmtNoArgsAux fuel tail
        else '%' :: '!' :: v :: ("(MISSING)".data ++ fmtNoArgsAux fuel tail)
    else c :: fmtNoArgsAux fuel rest

/-- Expansion fmt performs on a format string given zero operands. -/
def fmtNoArgs (l : List Char) : List Char := fmtNoArgsAux l.length l

/-- Error text produced by fmt.Errorf applied to a daemon result string
with no operands. -/
def errorfText (s : String) : String := ⟨fmtNoArgs s.data⟩

/-! ### The RPC transport -/

/-- Result of running a piece of the client: a nil-pointer dereference
(Go run-time panic), an error return, or a normal value. -/
inductive Outcome (α : Type) where
  | panic : Outcome α
  | error : String → Outcome α
  | ok : α → Outcome α

/-- Environment a single RPC call runs against, abstracting the Go
standard library and the network. marshal models json.Marshal of the
request value; newRequest models http.NewRequest applied to POST, the
address and the marshalled body, with the Go convention that exactly one
of the request and the error is present; send models cli.Do for the nth
POST issued during the call; readBody models ioutil.ReadAll composed
with textual JSON parsing of the body. -/
structure Env (ρ : Type) where
  marshal : ρ → Except String String
  newRequest : String → String → Except String HttpRequest
  send : Nat → HttpRequest → Except String HttpResponse
  readBody : HttpResponse → Except String Json

/-- The request actually posted: the session header is assigned onto the
freshly constructed request, then basic-auth credentials are attached
when both username and password are non-empty. -/
def buildRequest (t : Transmission) (r : HttpRequest) : HttpRequest :=
  let r := { r with headers := setHeader r.headers csrfSessionHeader [t.sessionId] }
  if t.username != "" && t.password != "" then
    { r with basicAuth := some (t.username, t.password) }
  else r

/-- postRequest: marshal the request, construct the HTTP request, assign
the session header, attach credentials, and send. The source assigns the
header before inspecting the construction error, so a failed construction
(nil request plus error) dereferences the nil request: the error branch
guarding the return is unreachable and the call panics instead. The
second component lists the requests handed to the transport (zero or
one). -/
def postRequest {ρ : Type} (env : Env ρ) (t : Transmission) (n : Nat) (req : ρ) :
    Outcome HttpResponse × List HttpRequest :=
  match env.marshal req with
  | .error e => (.error e, [])
  | .ok bts =>
    match env.newRequest t.address bts with
    | .error _ => (.panic, [])
    | .ok r =>
      let q := buildRequest t r
      match env.send n q with
      | .error e => (.error e, [q])
      | .ok resp => (.ok resp, [q])

/-- Read and decode the body of the response that survived the handshake
(the tail of doRPC after the retry logic). -/
def finishRPC {α : Type} {ρ : Type} (env : Env ρ) (decode : Json → Except String α)
    (t : Transmission) (resp : HttpResponse) (tr : List HttpRequest) :
    Outcome α × Transmission × List HttpRequest :=
  match env.readBody resp with
  | .error e => (.error e, t, tr)
  | .ok j =>
    match decode j with
    | .error e => (.error e, t, tr)
    | .ok a => (.ok a, t, tr)

/-- doRPC: issue the request; on a 409 first response extract the
session header (error when absent or not single-valued), store the new
token and retry exactly once; then read and decode the body of whichever
response is current. Returns the outcome, the updated client state and
the list of requests handed to the transport. -/
def doRPC {α : Type} {ρ : Type} (env : Env ρ) (decode : Json → Except String α)
    (t : Transmission) (req : ρ) : Outcome α × Transmission × List HttpRequest :=
  match postRequest env t 0 req with
  | (.panic, tr) => (.panic, t, tr)
  | (.error e, tr) => (.error e, t, tr)
  | (.ok resp, tr) =>
    if resp.statusCode = 409 then
      match lookupHeader resp.headers csrfSessionHeader with
      | none => (.error ("409 response without " ++ csrfSessionHeader), t, tr)
      | some sessionId =>
        match sessionId with
        | [v] =>
          let t := { t with sessionId := v }
          match postRequest env t 1 req with
          | (.panic, tr₁) => (.panic, t, tr ++ tr₁)
          | (.error e, tr₁) => (.error e, t, tr ++ tr₁)
          | (.ok resp₁, tr₁) => finishRPC env decode t resp₁ (tr ++ tr₁)
        | _ => (.error ("409 with " ++ csrfSessionHeader ++ ", but value is empty"), t, tr)
    else
      finishRPC env decode t resp tr

/-! ### Response data model

Field defaults are the Go zero values: 0, empty string, false, empty
slice. Go pointer components become Option; slices of pointers become
lists of Option. -/

/-- One file of a torrent (struct File). -/
structure File where
  name : String := ""
  bytesCompleted : Int := 0
  length : Int := 0

/-- Per-file statistics (struct FileStats). -/
structure FileStats where
  bytesCompleted : Int := 0
  wanted : Bool := false
  priority : Int := 0

/-- A torrent snapshot (struct Torrent), all 68 declared fields with
their JSON tags, in declaration order. float64 fields are carried as
Rat. -/
structure Torrent where
  activityDate : Int := 0
  addedDate : Int := 0
  bandwidthPriority : Int := 0
  comment : String := ""
  corruptEver : Int := 0
  creator : String := ""
  dateCreated : Int := 0
  desiredAvailable : Int := 0
  doneDate : Int := 0
  downloadDir : String := ""
  downloadedEver : Int := 0
  downloadLimit : Int := 0
  downloadLimited : Bool := false
  error : Int := 0
  errorString : String := ""
  eta : Int := 0
  etaIdle : Int := 0
  files : List (Option File) := []
  fileStats : List (Option FileStats) := []
  hashString : String := ""
  haveUnchecked : Int := 0
  haveValid : Int := 0
  honorsSessionLimits : Bool := false
  id : Int := 0
  isFinished : Bool := false
  isPrivate : Bool := false
  isStalled : Bool := false
  leftUntilDone : Int := 0
  magnetLink : String := ""
  manualAnnounceTime : Int := 0
  maxConnectedPeers : Int := 0
  metadataPercentComplete : Rat := 0
  name : String := ""
  peerLimit : Int := 0
  peers : List Int := []
  peersConnected : Int := 0
  peersFrom : Int := 0
  peersGettingFromUs : Int := 0
  peersSendingToUs : Int := 0
  percentDone : Rat := 0
  pieces : String := ""
  pieceCount : Int := 0
  pieceSize : Int := 0
  priorities : List Int := []
  queuePosition : Int := 0
  rateDownload : Int := 0
  rateUpload : Int := 0
  recheckProgress : Rat := 0
  secondsDownloading : Int := 0
  secondsSeeding : Int := 0
  seedIdleLimit : Int := 0
  seedIdleMode : Int := 0
  seedRatioLimit : Rat := 0
  seedRatioMode : Int := 0
  sizeWhenDone : Int := 0
  startDate : Int := 0
  status : Int := 0
  trackers : Int := 0
  trackerStats : Int := 0
  totalSize : Int := 0
  torrentFile : String := ""
  uploadedEver : Int := 0
  uploadLimit : Int := 0
  uploadLimited : Bool := false
  uploadRatio : Rat := 0
  wanted : Int := 0
  webseeds : Int := 0
  webseedsSendingToUs : Int := 0

/-- The shared response envelope head (struct responseBase). -/
structure ResponseBase where
  result : String := ""
  tag : Int := 0

/-! ### Typed JSON decoding (encoding/json semantics for the shapes the
client decodes into)

A JSON null leaves the target field unchanged; fields are matched by
their JSON tag (Go additionally matches field names case-insensitively,
which no tag here relies on); unknown keys are ignored; a type mismatch
or a non-integral number aimed at an integer field is an error. Integer
overflow is not modelled. -/

/-- Decode a JSON value into an int64 field: none means leave the field
unchanged (JSON null). -/
def decI (v : Json) : Except String (Option Int) :=
  match v with
  | .null => .ok none
  | .num q => if q.den = 1 then .ok (some q.num) else .error "json: non-integer into int64 field"
  | _ => .error "json: type mismatch for int64 field"

/-- Decode a JSON value into a float64 field. -/
def decF (v : Json) : Except String (Option Rat) :=
  match v with
  | .null => .ok none
  | .num q => .ok (some q)
  | _ => .error "json: type mismatch for float64 field"

/-- Decode a JSON value into a string field. -/
def decS (v : Json) : Except String (Option String) :=
  match v with
  | .null => .ok none
  | .str s => .ok (some s)
  | _ => .error "json: type mismatch for string field"

/-- Decode a JSON value into a bool field. -/
def decB (v : Json) : Except String (Option Bool) :=
  match v with
  | .null => .ok none
  | .bool b => .ok (some b)
  | _ => .error "json: type mismatch for bool field"

/-- Decode a JSON value into an int64 slice field. -/
def decIs (v : Json) : Except String (Option (List Int)) :=
  match v with
  | .null => .ok none
  | .arr js => (js.mapM (fun j =>
      match decI j with
      | .error e => (.error e : Except String Int)
      | .ok none => .ok 0
      | .ok (some x) => .ok x)).map some
  | _ => .error "json: type mismatch for int64 slice field"

/-- Fold one object key into a File record. -/
def applyFileField (f : File) (kv : String × Json) : Except String File :=
  match kv with
  | ("name", v) => (decS v).map (fun o => match o with | none => f | some x => { f with name := x })
  | ("bytesCompleted", v) =>
      (decI v).map (fun o => match o with | none => f | some x => { f with bytesCompleted := x })
  | ("length", v) =>
      (decI v).map (fun o => match o with | none => f | some x => { f with length := x })
  | _ => .ok f

/-- Decode a JSON value into one element of a pointer slice of File. -/
def decodeFile (v : Json) : Except String (Option File) :=
  match v with
  | .null => .ok none
  | .obj kvs => (kvs.foldlM applyFileField {}).map some
  | _ => .error "json: type mismatch for File"

/-- Fold one object key into a FileStats record. -/
def applyFileStatsField (f : FileStats) (kv : String × Json) : Except String FileStats :=
  match kv with
  | ("bytesCompleted", v) =>
      (decI v).map (fun o => match o with | none => f | some x => { f with bytesCompleted := x })
  | ("wanted", v) =>
      (decB v).map (fun o => match o with | none => f | some x => { f with wanted := x })
  | ("priority", v) =>
      (decI v).map (fun o => match o with | none => f | some x => { f with priority := x })
  | _ => .ok f

/-- Decode a JSON value into one element of a pointer slice of FileStats. -/
def decodeFileStats (v : Json) : Except String (Option FileStats) :=
  match v with
  | .null => .ok none
  | .obj kvs => (kvs.foldlM applyFileStatsField {}).map some
  | _ => .error "json: type mismatch for FileStats"

/-- Decode a JSON value into the files slice. -/
def decFiles (v : Json) : Except String (Option (List (Option File))) :=
  match v with
  | .null => .ok none
  | .arr js => (js.mapM decodeFile).map some
  | _ => .error "json: type mismatch for File slice"

/-- Decode a JSON value into the fileStats slice. -/
def decFileStats (v : Json) : Except String (Option (List (Option FileStats))) :=
  match v with
  | .null => .ok none
  | .arr js => (js.mapM decodeFileStats).map some
  | _ => .error "json: type mismatch for FileStats slice"

/-- Fold one object key into a Torrent record, matching the JSON tags of
the Torrent struct; unknown keys are ignored. -/
def applyTorrentField (t : Torrent) (kv : String × Json) : Except String Torrent :=
  match kv with
  | ("activityDate", v) => (decI v).map (fun o => o.elim t fun x => { t with activityDate := x })
  | ("addedDate", v) => (decI v).map (fun o => o.elim t fun x => { t with addedDate := x })
  | ("bandwidthPriority", v) =>
      (decI v).map (fun o => o.elim t fun x => { t with bandwidthPriority := x })
  | ("comment", v) => (decS v).map (fun o => o.elim t fun x => { t with comment := x })
  | ("corruptEver", v) => (decI v).map (fun o => o.elim t fun x => { t with corruptEver := x })
  | ("creator", v) => (decS v).map (fun o => o.elim t fun x => { t with creator := x })
  | ("dateCreated", v) => (decI v).map (fun o => o.elim t fun x => { t with dateCreated := x })
  | ("desiredAvailable", v) =>
      (decI v).map (fun o => o.elim t fun x => { t with desiredAvailable := x })
  | ("doneDate", v) => (decI v).map (fun o => o.elim t fun x => { t with doneDate := x })
  | ("downloadDir", v) => (decS v).map (fun o => o.elim t fun x => { t with downloadDir := x })
  | ("downloadedEver", v) =>
      (decI v).map (fun o => o.elim t fun x => { t with downloadedEver := x })
  | ("downloadLimit", v) => (decI v).map (fun o => o.elim t fun x => { t with downloadLimit := x })
  | ("downloadLimited", v) =>
      (decB v).map (fun o => o.elim t fun x => { t with downloadLimited := x })
  | ("error", v) => (decI v).map (fun o => o.elim t fun x => { t with error := x })
  | ("errorString", v) => (decS v).map (fun o => o.elim t fun x => { t with errorString := x })
  | ("eta", v) => (decI v).map (fun o => o.elim t fun x => { t with eta := x })
  | ("etaIdle", v) => (decI v).map (fun o => o.elim t fun x => { t with etaIdle := x })
  | ("files", v) => (decFiles v).map (fun o => o.elim t fun x => { t with files := x })
  | ("fileStats", v) => (decFileStats v).map (fun o => o.elim t fun x => { t with fileStats := x })
  | ("hashString", v) => (decS v).map (fun o => o.elim t fun x => { t with hashString := x })
  | ("haveUnchecked", v) => (decI v).map (fun o => o.elim t fun x => { t with haveUnchecked := x })
  | ("haveValid", v) => (decI v).map (fun o => o.elim t fun x => { t with haveValid := x })
  | ("honorsSessionLimits", v) =>
      (decB v).map (fun o => o.elim t fun x => { t with honorsSessionLimits := x })
  | ("id", v) => (decI v).map (fun o => o.elim t fun x => { t with id := x })
  | ("isFinished", v) => (decB v).map (fun o => o.elim t fun x => { t with isFinished := x })
  | ("isPrivate", v) => (decB v).map (fun o => o.elim t fun x => { t with isPrivate := x })
  | ("isStalled", v) => (decB v).map (fun o => o.elim t fun x => { t with isStalled := x })
  | ("leftUntilDone", v) => (decI v).map (fun o => o.elim t fun x => { t with leftUntilDone := x })
  | ("magnetLink", v) => (decS v).map (fun o => o.elim t fun x => { t with magnetLink := x })
  | ("manualAnnounceTime", v) =>
      (decI v).map (fun o => o.elim t fun x => { t with manualAnnounceTime := x })
  | ("maxConnectedPeers", v) =>
      (decI v).map (fun o => o.elim t fun x => { t with maxConnectedPeers := x })
  | ("metadataPercentComplete", v) =>
      (decF v).map (fun o => o.elim t fun x => { t with metadataPercentComplete := x })
  | ("name", v) => (decS v).map (fun o => o.elim t fun x => { t with name := x })
  | ("peerLimit", v) => (decI v).map (fun o => o.elim t fun x => { t with peerLimit := x })
  | ("peers", v) => (decIs v).map (fun o => o.elim t fun x => { t with peers := x })
  | ("peersConnected", v) =>
      (decI v).map (fun o => o.elim t fun x => { t with peersConnected := x })
  | ("peersFrom", v) => (decI v).map (fun o => o.elim t fun x => { t with peersFrom := x })
  | ("peersGettingFromUs", v) =>
      (decI v).map (fun o => o.elim t fun x => { t with peersGettingFromUs := x })
  | ("peersSendingToUs", v) =>
      (decI v).map (fun o => o.elim t fun x => { t with peersSendingToUs := x })
  | ("percentDone", v) => (decF v).map (fun o => o.elim t fun x => { t with percentDone := x })
  | ("pieces", v) => (decS v).map (fun o => o.elim t fun x => { t with pieces := x })
  | ("pieceCount", v) => (decI v).map (fun o => o.elim t fun x => { t with pieceCount := x })
  | ("pieceSize", v) => (decI v).map (fun o => o.elim t fun x => { t with pieceSize := x })
  | ("priorities", v) => (decIs v).map (fun o => o.elim t fun x => { t with priorities := x })
  | ("queuePosition", v) => (decI v).map (fun o => o.elim t fun x => { t with queuePosition := x })
  | ("rateDownload", v) => (decI v).map (fun o => o.elim t fun x => { t with rateDownload := x })
  | ("rateUpload", v) => (decI v).map (fun o => o.elim t fun x => { t with rateUpload := x })
  | ("recheckProgress", v) =>
      (decF v).map (fun o => o.elim t fun x => { t with recheckProgress := x })
  | ("secondsDownloading", v) =>
      (decI v).map (fun o => o.elim t fun x => { t with secondsDownloading := x })
  | ("secondsSeeding", v) =>
      (decI v).map (fun o => o.elim t fun x => { t with secondsSeeding := x })
  | ("seedIdleLimit", v) => (decI v).map (fun o => o.elim t fun x => { t with seedIdleLimit := x })
  | ("seedIdleMode", v) => (decI v).map (fun o => o.elim t fun x => { t with seedIdleMode := x })
  | ("seedRatioLimit", v) =>
      (decF v).map (fun o => o.elim t fun x => { t with seedRatioLimit := x })
  | ("seedRatioMode", v) => (decI v).map (fun o => o.elim t fun x => { t with seedRatioMode := x })
  | ("sizeWhenDone", v) => (decI v).map (fun o => o.elim t fun x => { t with sizeWhenDone := x })
  | ("startDate", v) => (decI v).map (fun o => o.elim t fun x => { t with startDate := x })
  | ("status", v) => (decI v).map (fun o => o.elim t fun x => { t with status := x })
  | ("trackers", v) => (decI v).map (fun o => o.elim t fun x => { t with trackers := x })
  | ("trackerStats", v) => (decI v).map (fun o => o.elim t fun x => { t with trackerStats := x })
  | ("totalSize", v) => (decI v).map (fun o => o.elim t fun x => { t with totalSize := x })
  | ("torrentFile", v) => (decS v).map (fun o => o.elim t fun x => { t with torrentFile := x })
  | ("uploadedEver", v) => (decI v).map (fun o => o.elim t fun x => { t with uploadedEver := x })
  | ("uploadLimit", v) => (decI v).map (fun o => o.elim t fun x => { t with uploadLimit := x })
  | ("uploadLimited", v) => (decB v).map (fun o => o.elim t fun x => { t with uploadLimited := x })
  | ("uploadRatio", v) => (decF v).map (fun o => o.elim t fun x => { t with uploadRatio := x })
  | ("wanted", v) => (decI v).map (fun o => o.elim t fun x => { t with wanted := x })
  | ("webseeds", v) => (decI v).map (fun o => o.elim t fun x => { t with webseeds := x })
  | ("webseedsSendingToUs", v) =>
      (decI v).map (fun o => o.elim t fun x => { t with webseedsSendingToUs := x })
  | _ => .ok t

/-- Decode a JSON value into one element of a pointer slice of Torrent. -/
def decodeTorrent (v : Json) : Except String (Option Torrent) :=
  match v with
  | .null => .ok none
  | .obj kvs => (kvs.foldlM applyTorrentField {}).map some
  | _ => .error "json: type mismatch for Torrent"

/-- Response envelope of torrent-get (struct getResponse): the embedded
responseBase is a pointer allocated only when a promoted key appears,
and Arguments is a pointer allocated only when the arguments key
appears. -/
structure GetResponsePayload where
  torrents : List (Option Torrent) := []

/-- Response envelope of torrent-get. -/
structure GetResponse where
  base : Option ResponseBase := none
  arguments : Option GetResponsePayload := none

/-- Response envelope of the lifecycle calls (struct
torrentRequestsResponse): only the embedded responseBase pointer. -/
structure TorrentRequestsResponse where
  base : Option ResponseBase := none

/-- Fold one promoted responseBase key into the embedded pointer,
allocating it when nil. -/
def applyResponseBaseField (b : Option ResponseBase) (k : String) (v : Json) :
    Except String (Option ResponseBase) :=
  match k with
  | "result" =>
      (decS v).map (fun o => o.elim b fun x => some { (b.getD {}) with result := x })
  | "tag" =>
      (decI v).map (fun o => o.elim b fun x => some { (b.getD {}) with tag := x })
  | _ => .ok b

/-- Fold one object key into the torrent-get payload. -/
def applyGetResponsePayloadField (p : GetResponsePayload) (kv : String × Json) :
    Except String GetResponsePayload :=
  match kv with
  | ("torrents", v) =>
      match v with
      | .null => .ok p
      | .arr js => (js.mapM decodeTorrent).map (fun ts => { p with torrents := ts })
      | _ => .error "json: type mismatch for Torrent slice"
  | _ => .ok p

/-- Fold one top-level object key into a getResponse value. -/
def applyGetResponseField (r : GetResponse) (kv : String × Json) : Except String GetResponse :=
  match kv with
  | ("arguments", v) =>
      match v with
      | .null => .ok { r with arguments := none }
      | .obj kvs =>
          (kvs.foldlM applyGetResponsePayloadField ((r.arguments).getD {})).map
            (fun p => { r with arguments := some p })
      | _ => .error "json: type mismatch for getResponsePayload"
  | (k, v) => (applyResponseBaseField r.base k v).map (fun b => { r with base := b })

/-- Typed decoding of a parsed body into getResponse (dec.Decode in
ListAll); a JSON null body is a no-op on the zero value. -/
def decodeGetResponse (j : Json) : Except String GetResponse :=
  match j with
  | .null => .ok {}
  | .obj kvs => kvs.foldlM applyGetResponseField {}
  | _ => .error "json: type mismatch for getResponse"

/-- Fold one top-level object key into a torrentRequestsResponse value. -/
def applyTorrentRequestsResponseField (r : TorrentRequestsResponse) (kv : String × Json) :
    Except String TorrentRequestsResponse :=
  match kv with
  | (k, v) => (applyResponseBaseField r.base k v).map (fun b => { r with base := b })

/-- Typed decoding of a parsed body into torrentRequestsResponse. -/
def decodeTorrentRequestsResponse (j : Json) : Except String TorrentRequestsResponse :=
  match j with
  | .null => .ok {}
  | .obj kvs => kvs.foldlM applyTorrentRequestsResponseField {}
  | _ => .error "json: type mismatch for torrentRequestsResponse"

/-! ### Request construction -/

/-- The shared request envelope head (struct requestBase); the pointer
embedding is always allocated by the constructors, so it is modelled as
a plain component. -/
structure RequestBase where
  method : String
  tag : Int

/-- Arguments of torrent-get (struct getRequestPayload). -/
structure GetRequestPayload where
  ids : List Int := []
  fields : List String := []

/-- A torrent-get request (struct getRequest). -/
structure GetRequest where
  base : RequestBase
  arguments : GetRequestPayload

/-- Arguments of the lifecycle calls (struct
torrentRequestsRequestPayload). -/
structure TorrentRequestsRequestPayload where
  ids : List Int := []

/-- A lifecycle request (struct torrentRequestsRequest). -/
structure TorrentRequestsRequest where
  base : RequestBase
  arguments : TorrentRequestsRequestPayload

/-- The explicit field list ListAll sends, in source order, including
the duplicated entries; the commented-out entries of the source are
absent. -/
def listAllFields : List String :=
  ["name", "id", "totalSize", "eta", "status", "percentDone",
   "activityDate", "addedDate", "bandwidthPriority", "comment", "corruptEver", "creator",
   "dateCreated", "desiredAvailable", "doneDate", "downloadDir", "downloadedEver",
   "downloadLimit", "downloadLimited", "error", "errorString", "eta", "etaIdle", "files",
   "fileStats", "hashString", "haveUnchecked", "haveValid", "honorsSessionLimits", "id",
   "isFinished", "isPrivate", "isStalled", "leftUntilDone", "magnetLink",
   "manualAnnounceTime", "maxConnectedPeers", "metadataPercentComplete", "name",
   "peerLimit", "percentDone", "pieces", "pieceCount", "pieceSize", "rateDownload",
   "rateUpload", "recheckProgress", "secondsDownloading", "secondsSeeding",
   "seedIdleLimit", "seedIdleMode", "seedRatioLimit", "seedRatioMode", "sizeWhenDone",
   "startDate", "status", "totalSize", "torrentFile", "uploadedEver", "uploadLimit",
   "uploadLimited", "uploadRatio", "webseedsSendingToUs"]

/-- The JSON tags of all fields declared in the Torrent struct, in
declaration order. -/
def torrentFieldNames : List String :=
  ["activityDate", "addedDate", "bandwidthPriority", "comment", "corruptEver", "creator",
   "dateCreated", "desiredAvailable", "doneDate", "downloadDir", "downloadedEver",
   "downloadLimit", "downloadLimited", "error", "errorString", "eta", "etaIdle", "files",
   "fileStats", "hashString", "haveUnchecked", "haveValid", "honorsSessionLimits", "id",
   "isFinished", "isPrivate", "isStalled", "leftUntilDone", "magnetLink",
   "manualAnnounceTime", "maxConnectedPeers", "metadataPercentComplete", "name",
   "peerLimit", "peers", "peersConnected", "peersFrom", "peersGettingFromUs",
   "peersSendingToUs", "percentDone", "pieces", "pieceCount", "pieceSize", "priorities",
   "queuePosition", "rateDownload", "rateUpload", "recheckProgress", "secondsDownloading",
   "secondsSeeding", "seedIdleLimit", "seedIdleMode", "seedRatioLimit", "seedRatioMode",
   "sizeWhenDone", "startDate", "status", "trackers", "trackerStats", "totalSize",
   "torrentFile", "uploadedEver", "uploadLimit", "uploadLimited", "uploadRatio", "wanted",
   "webseeds", "webseedsSendingToUs"]

/-- The request value ListAll constructs. -/
def listAllRequest : GetRequest :=
  { base := { method := "torrent-get", tag := 1 }
    arguments := { ids := [], fields := listAllFields } }

/-! ### Client operations -/

/-- ListAll: issue torrent-get, then check the envelope result against
the success sentinel; on any other result report it through fmt.Errorf
(format-string expansion included); on success return the torrents slice
of the arguments pointer. Reading the result string through a nil
embedded responseBase, or the torrents slice through a nil arguments
pointer, panics. -/
def ListAll (env : Env GetRequest) (t : Transmission) :
    Outcome (List (Option Torrent)) × Transmission × List HttpRequest :=
  match doRPC env decodeGetResponse t listAllRequest with
  | (.panic, t, tr) => (.panic, t, tr)
  | (.error e, t, tr) => (.error e, t, tr)
  | (.ok resp, t, tr) =>
    match resp.base with
    | none => (.panic, t, tr)
    | some b =>
      if b.result ≠ "success" then (.error (errorfText b.result), t, tr)
      else
        match resp.arguments with
        | none => (.panic, t, tr)
        | some args => (.ok args.torrents, t, tr)

/-- torrentRequests: shared body of the lifecycle calls; an empty
identifier list returns success immediately with no call made. -/
def torrentRequests (env : Env TorrentRequestsRequest) (t : Transmission) (method : String)
    (ids : List Int) : Outcome Unit × Transmission × List HttpRequest :=
  if ids.length = 0 then (.ok (), t, [])
  else
    let req : TorrentRequestsRequest :=
      { base := { method := method, tag := 1 }, arguments := { ids := ids } }
    match doRPC env decodeTorrentRequestsResponse t req with
    | (.panic, t, tr) => (.panic, t, tr)
    | (.error e, t, tr) => (.error e, t, tr)
    | (.ok resp, t, tr) =>
      match resp.base with
      | none => (.panic, t, tr)
      | some b =>
        if b.result ≠ "success" then (.error (errorfText b.result), t, tr)
        else (.ok (), t, tr)

/-- Project the identifier field from torrent snapshots, in order. -/
def torrentsToIds (torrents : List Torrent) : List Int :=
  torrents.map Torrent.id

/-- Start: torrent-start on the given identifiers. -/
def Start (env : Env TorrentRequestsRequest) (t : Transmission) (ids : List Int) :
    Outcome Unit × Transmission × List HttpRequest :=
  torrentRequests env t "torrent-start" ids

/-- StartNow: torrent-start-now on the given identifiers. -/
def StartNow (env : Env TorrentRequestsRequest) (t : Transmission) (ids : List Int) :
    Outcome Unit × Transmission × List HttpRequest :=
  torrentRequests env t "torrent-start-now" ids

/-- Stop: torrent-stop on the given identifiers. -/
def Stop (env : Env TorrentRequestsRequest) (t : Transmission) (ids : List Int) :
    Outcome Unit × Transmission × List HttpRequest :=
  torrentRequests env t "torrent-stop" ids

/-- Verify: torrent-verify on the given identifiers. -/
def Verify (env : Env TorrentRequestsRequest) (t : Transmission) (ids : List Int) :
    Outcome Unit × Transmission × List HttpRequest :=
  torrentRequests env t "torrent-verify" ids

/-- Reannounce: torrent-reannounce on the given identifiers. -/
def Reannounce (env : Env TorrentRequestsRequest) (t : Transmission) (ids : List Int) :
    Outcome Unit × Transmission × List HttpRequest :=
  torrentRequests env t "torrent-reannounce" ids

/-- Remove: torrent-remove on the given identifiers (local content kept). -/
def Remove (env : Env TorrentRequestsRequest) (t : Transmission) (ids : List Int) :
    Outcome Unit × Transmission × List HttpRequest :=
  torrentRequests env t "torrent-remove" ids

/-! ### Concrete fixtures for evaluating the model -/

/-- A deterministic environment: marshalling yields a fixed body, request
construction always succeeds with no preexisting headers, and the nth
POST of the call is answered by the nth scripted transport result. -/
def mkEnv (ρ : Type) (resps : List (Except String HttpResponse)) : Env ρ :=
  { marshal := fun _ => .ok "body"
    newRequest := fun a b =>
      .ok { method := "POST", url := a, body := b, headers := [], basicAuth := none }
    send := fun n _ => resps.getD n (.error "transport: no response")
    readBody := fun r => .ok r.body }

/-- A client with no credentials and no session token yet. -/
def tDemo : Transmission :=
  { address := "http://h/transmission/rpc", username := "", password := "", sessionId := "" }

/-- A concrete lifecycle request value. -/
def reqDemo : TorrentRequestsRequest :=
  { base := { method := "torrent-start", tag := 1 }, arguments := { ids := [1] } }

/-- The request mkEnv causes to be posted when the session token is the
given string. -/
def qDemo (sid : String) : HttpRequest :=
  { method := "POST", url := "http://h/transmission/rpc", body := "body",
    headers := [(csrfSessionHeader, [sid])], basicAuth := none }

/-- A 409 response carrying no headers at all. -/
def resp409NoHeader : HttpResponse := { statusCode := 409, headers := [], body := .null }

/-- A 409 response carrying the refreshed session token abc123. -/
def resp409abc : HttpResponse :=
  { statusCode := 409, headers := [(csrfSessionHeader, ["abc123"])], body := .null }

/-- A 200 response whose body is the given JSON envelope. -/
def respEnvelope (j : Json) : HttpResponse := { statusCode := 200, headers := [], body := j }

/-- A success envelope with no arguments object. -/
def successEmptyEnvelope : Json := .obj [("result", .str "success"), ("tag", .num 1)]

/-- An envelope carrying the given result string and no arguments. -/
def resultEnvelope (s : String) : Json := .obj [("result", .str s), ("tag", .num 1)]

/-- The raw request mkEnv constructs before the session header is
assigned. -/
def rDemo : HttpRequest :=
  { method := "POST", url := "http://h/transmission/rpc", body := "body",
    headers := [], basicAuth := none }

/-- A success envelope listing two torrents: id 1 named a with status 4,
then id 2 named b with status 16. -/
def listDemoBody : Json :=
  .obj [("result", .str "success"), ("tag", .num 1),
        ("arguments", .obj [("torrents", .arr
          [.obj [("id", .num 1), ("name", .str "a"), ("status", .num 4)],
           .obj [("id", .num 2), ("name", .str "b"), ("status", .num 16)]])])]

/-- The first record listDemoBody decodes to: id 1, name a, status 4,
every other field at its zero value. -/
def torrentA : Torrent := { id := 1, name := "a", status := 4 }

/-- The second record listDemoBody decodes to: id 2, name b, status 16,
every other field at its zero value. -/
def torrentB : Torrent := { id := 2, name := "b", status := 16 }

/-- An environment whose request construction fails, as http.NewRequest
does on an unparsable address. -/
def envBadUrl : Env TorrentRequestsRequest :=
  { marshal := fun _ => .ok "body"
    newRequest := fun _ _ => .error "parse error: missing protocol scheme"
    send := fun _ _ => .error "transport unused"
    readBody := fun r => .ok r.body }

/-- The Torrent-struct fields, in declaration order, that ListAll does
not request: the commented-out entries of the source field list. -/
def omittedTorrentFields : List String :=
  ["peers", "peersConnected", "peersFrom", "peersGettingFromUs", "peersSendingToUs",
   "priorities", "queuePosition", "trackers", "trackerStats", "wanted", "webseeds"]

/-! ### Helper lemmas -/

theorem lookupHeader_setHeader (hs : List (String × List String)) (k : String)
    (v : List String) : lookupHeader (setHeader hs k v) k = some v := by
  induction hs with
  | nil => simp [setHeader, lookupHeader]
  | cons p rest ih =>
    obtain ⟨k₀, v₀⟩ := p
    by_cases h : k₀ = k
    · simp [setHeader, lookupHeader, h]
    · simp [setHeader, lookupHeader, h, ih]

theorem buildRequest_lookup (t : Transmission) (r : HttpRequest) :
    lookupHeader (buildRequest t r).headers csrfSessionHeader = some [t.sessionId] := by
  unfold buildRequest
  split
  · exact lookupHeader_setHeader r.headers csrfSessionHeader [t.sessionId]
  · exact lookupHeader_setHeader r.headers csrfSessionHeader [t.sessionId]

theorem finishRPC_trace {α ρ : Type} (env : Env ρ) (decode : Json → Except String α)
    (t : Transmission) (resp : HttpResponse) (tr : List HttpRequest) :
    (finishRPC env decode t resp tr).2.2 = tr := by
  unfold finishRPC
  split
  · rfl
  · split <;> rfl

theorem finishRPC_state {α ρ : Type} (env : Env ρ) (decode : Json → Except String α)
    (t : Transmission) (resp : HttpResponse) (tr : List HttpRequest) :
    (finishRPC env decode t resp tr).2.1 = t := by
  unfold finishRPC
  split
  · rfl
  · split <;> rfl

theorem postRequest_eq {ρ : Type} (env : Env ρ) (t : Transmission) (n : Nat) (req : ρ)
    (b : String) (r : HttpRequest) (hm : env.marshal req = .ok b)
    (hn : env.newRequest t.address b = .ok r) :
    postRequest env t n req =
      match env.send n (buildRequest t r) with
      | .error e => (.error e, [buildRequest t r])
      | .ok resp => (.ok resp, [buildRequest t r]) := by
  unfold postRequest
  rw [hm]
  dsimp only
  rw [hn]

theorem doRPC_first_error {α ρ : Type} (env : Env ρ) (decode : Json → Except String α)
    (t : Transmission) (req : ρ) (b : String) (r : HttpRequest) (e : String)
    (hm : env.marshal req = .ok b) (hn : env.newRequest t.address b = .ok r)
    (hs : env.send 0 (buildRequest t r) = .error e) :
    doRPC env decode t req = (.error e, t, [buildRequest t r]) := by
  unfold doRPC
  rw [postRequest_eq env t 0 req b r hm hn, hs]

theorem doRPC_no409 {α ρ : Type} (env : Env ρ) (decode : Json → Except String α)
    (t : Transmission) (req : ρ) (b : String) (r : HttpRequest) (resp : HttpResponse)
    (hm : env.marshal req = .ok b) (hn : env.newRequest t.address b = .ok r)
    (hs : env.send 0 (buildRequest t r) = .ok resp) (h409 : resp.statusCode ≠ 409) :
    doRPC env decode t req = finishRPC env decode t resp [buildRequest t r] := by
  unfold doRPC
  rw [postRequest_eq env t 0 req b r hm hn, hs]
  dsimp only
  rw [if_neg h409]

theorem doRPC_409_noHeader {α ρ : Type} (env : Env ρ) (decode : Json → Except String α)
    (t : Transmission) (req : ρ) (b : String) (r : HttpRequest) (resp : HttpResponse)
    (hm : env.marshal req = .ok b) (hn : env.newRequest t.address b = .ok r)
    (hs : env.send 0 (buildRequest t r) = .ok resp) (h409 : resp.statusCode = 409)
    (hlook : lookupHeader resp.headers csrfSessionHeader = none) :
    doRPC env decode t req =
      (.error ("409 response without " ++ csrfSessionHeader), t, [buildRequest t r]) := by
  unfold doRPC
  rw [postRequest_eq env t 0 req b r hm hn, hs]
  dsimp only
  rw [if_pos h409, hlook]

theorem doRPC_409_badHeader {α ρ : Type} (env : Env ρ) (decode : Json → Except String α)
    (t : Transmission) (req : ρ) (b : String) (r : HttpRequest) (resp : HttpResponse)
    (vs : List String) (hm : env.marshal req = .ok b)
    (hn : env.newRequest t.address b = .ok r)
    (hs : env.send 0 (buildRequest t r) = .ok resp) (h409 : resp.statusCode = 409)
    (hlook : lookupHeader resp.headers csrfSessionHeader = some vs) (hlen : vs.length ≠ 1) :
    doRPC env decode t req =
      (.error ("409 with " ++ csrfSessionHeader ++ ", but value is empty"), t,
        [buildRequest t r]) := by
  unfold doRPC
  rw [postRequest_eq env t 0 req b r hm hn, hs]
  dsimp only
  rw [if_pos h409, hlook]
  match vs, hlen with
  | [], _ => rfl
  | v :: v' :: rest, _ => rfl
  | [v], hlen => exact absurd rfl hlen

theorem doRPC_retry {α ρ : Type} (env : Env ρ) (decode : Json → Except String α)
    (t : Transmission) (req : ρ) (b : String) (r : HttpRequest) (resp : HttpResponse)
    (v : String) (hm : env.marshal req = .ok b) (hn : env.newRequest t.address b = .ok r)
    (hs : env.send 0 (buildRequest t r) = .ok resp) (h409 : resp.statusCode = 409)
    (hlook : lookupHeader resp.headers csrfSessionHeader = some [v]) :
    doRPC env decode t req =
      match env.send 1 (buildRequest { t with sessionId := v } r) with
      | .error e => (.error e, { t with sessionId := v },
          [buildRequest t r, buildRequest { t with sessionId := v } r])
      | .ok resp₁ => finishRPC env decode { t with sessionId := v } resp₁
          [buildRequest t r, buildRequest { t with sessionId := v } r] := by
  have hn' : env.newRequest ({ t with sessionId := v } : Transmission).address b = .ok r := hn
  unfold doRPC
  rw [postRequest_eq env t 0 req b r hm hn, hs]
  dsimp only
  rw [if_pos h409, hlook]
  dsimp only
  rw [postRequest_eq env { t with sessionId := v } 1 req b r hm hn']
  cases env.send 1 (buildRequest { t with sessionId := v } r) with
  | error e => rfl
  | ok resp₁ => rfl

/-! ### Claim theorems -/

/-- C4: every lifecycle operation (Start, StartNow, Stop, Verify,
Reannounce, Remove) called with an empty identifier list makes zero HTTP
calls, returns success, and leaves the client state, the session token
included, unchanged. -/
theorem lifecycle_empty_noop :
    ∀ (env : Env TorrentRequestsRequest) (t : Transmission),
      Start env t [] = (.ok (), t, []) ∧ StartNow env t [] = (.ok (), t, []) ∧
      Stop env t [] = (.ok (), t, []) ∧ Verify env t [] = (.ok (), t, []) ∧
      Reannounce env t [] = (.ok (), t, []) ∧ Remove env t [] = (.ok (), t, []) :=
  fun _ _ => ⟨rfl, rfl, rfl, rfl, rfl, rfl⟩

/-- C6: New prepends the http scheme and appends the RPC path when
missing, so localhost:9091 becomes
http://localhost:9091/transmission/rpc, an address already carrying both
is unchanged, and construction never fails on any string input. -/
theorem New_normalizes :
    (∃ t, New "localhost:9091" "" "" = .ok t ∧
      t.address = "http://localhost:9091/transmission/rpc") ∧
    (∃ t, New "https://host/transmission/rpc" "u" "p" = .ok t ∧
      t.address = "https://host/transmission/rpc") ∧
    (∀ a u p : String, ∃ t, New a u p = .ok t) :=
  ⟨⟨_, rfl, rfl⟩, ⟨_, rfl, rfl⟩, fun _ _ _ => ⟨_, rfl⟩⟩

/-- C9: postRequest assigns the session header into the constructed
request before checking the construction error, so whenever request
construction fails with a nil request and an error, the call
dereferences the nil request (panics) instead of returning the error. -/
theorem postRequest_nil_deref {ρ : Type} (env : Env ρ) (t : Transmission) (n : Nat)
    (req : ρ) (b e : String) (hm : env.marshal req = .ok b)
    (hn : env.newRequest t.address b = .error e) :
    postRequest env t n req = (.panic, []) := by
  unfold postRequest
  rw [hm]
  dsimp only
  rw [hn]

/-- Witness for C9: in an environment whose request construction always
fails, postRequest panics rather than surfacing the construction
error. -/
theorem postRequest_nil_deref_witness :
    envBadUrl.newRequest tDemo.address "body" = .error "parse error: missing protocol scheme" ∧
    postRequest envBadUrl tDemo 0 reqDemo = (.panic, []) :=
  ⟨rfl, postRequest_nil_deref envBadUrl tDemo 0 reqDemo "body"
    "parse error: missing protocol scheme" rfl rfl⟩

/-- C5 (code bug): the claim says the error text always equals the
envelope result string verbatim, and the source intends that, but it
reports the daemon string through fmt.Errorf as a format string: a
result containing a percent directive is expanded, so result 100
percent yields the NOVERB marker instead of the verbatim string, while
percent-free results such as duplicate torrent do come out verbatim. -/
theorem errorf_format_string_bug :
    (torrentRequests (mkEnv TorrentRequestsRequest
        [.ok (respEnvelope (resultEnvelope "100%"))]) tDemo "torrent-start" [1]).1 =
      .error "100%!(NOVERB)" ∧
    ("100%!(NOVERB)" : String) ≠ "100%" ∧
    (torrentRequests (mkEnv TorrentRequestsRequest
        [.ok (respEnvelope (resultEnvelope "duplicate torrent"))])
        tDemo "torrent-start" [1]).1 = .error "duplicate torrent" ∧
    (ListAll (mkEnv GetRequest [.ok (respEnvelope (resultEnvelope "100%"))]) tDemo).1 =
      .error "100%!(NOVERB)" :=
  ⟨rfl, by decide, rfl, rfl⟩

/-- Counterexample for C8: peersConnected is declared in the Torrent
record and absent from the requested field list, yet it is not among the
six fields the claim names, so the set of omitted fields is not that
six-element set. -/
theorem torrent_fields_cex :
    ("peersConnected" ∈ torrentFieldNames) ∧ ("peersConnected" ∉ listAllFields) ∧
    ("peersConnected" ∉ (["peers", "trackers", "priorities", "queuePosition", "wanted",
      "webseeds"] : List String)) := by
  decide

/-- C8 (amended): the Torrent-record fields absent from the field list
ListAll requests are exactly the eleven fields peers, peersConnected,
peersFrom, peersGettingFromUs, peersSendingToUs, priorities,
queuePosition, trackers, trackerStats, wanted and webseeds, and every
requested field is a declared Torrent field. -/
theorem torrent_fields_amended :
    torrentFieldNames.filter (fun f => ! listAllFields.contains f) = omittedTorrentFields ∧
    listAllFields.all (fun f => torrentFieldNames.contains f) = true := by
  constructor
  · rfl
  · rfl

/-- C2: when the first response is a 409 carrying exactly one value v in
the session header, the stored session token equals v before the retried
request is sent (the client state holds v when the second request is
built, and still holds v at return), and the retried request carries v
in its session header. -/
theorem doRPC_409_refresh {α ρ : Type} (env : Env ρ) (decode : Json → Except String α)
    (t : Transmission) (req : ρ) (b : String) (r : HttpRequest) (resp : HttpResponse)
    (v : String) (hm : env.marshal req = .ok b) (hn : env.newRequest t.address b = .ok r)
    (hs : env.send 0 (buildRequest t r) = .ok resp) (h409 : resp.statusCode = 409)
    (hlook : lookupHeader resp.headers csrfSessionHeader = some [v]) :
    (doRPC env decode t req).2.1 = { t with sessionId := v } ∧
    (doRPC env decode t req).2.2 =
      [buildRequest t r, buildRequest { t with sessionId := v } r] ∧
    lookupHeader (buildRequest { t with sessionId := v } r).headers csrfSessionHeader =
      some [v] := by
  have h := doRPC_retry env decode t req b r resp v hm hn hs h409 hlook
  refine ⟨?_, ?_, buildRequest_lookup { t with sessionId := v } r⟩
  · rw [h]
    cases h₂ : env.send 1 (buildRequest { t with sessionId := v } r) with
    | error e => rfl
    | ok resp₁ => exact finishRPC_state env decode _ resp₁ _
  · rw [h]
    cases h₂ : env.send 1 (buildRequest { t with sessionId := v } r) with
    | error e => rfl
    | ok resp₁ => exact finishRPC_trace env decode _ resp₁ _

/-- Witness for C2: a first response of 409 with header value abc123
leaves the client holding abc123 and sends a second request whose
session header carries abc123. -/
theorem doRPC_409_refresh_witness :
    (doRPC (mkEnv TorrentRequestsRequest
        [.ok resp409abc, .ok (respEnvelope successEmptyEnvelope)])
      decodeTorrentRequestsResponse tDemo reqDemo).2.1 =
        { tDemo with sessionId := "abc123" } ∧
    (doRPC (mkEnv TorrentRequestsRequest
        [.ok resp409abc, .ok (respEnvelope successEmptyEnvelope)])
      decodeTorrentRequestsResponse tDemo reqDemo).2.2 = [qDemo "", qDemo "abc123"] ∧
    lookupHeader (qDemo "abc123").headers csrfSessionHeader = some ["abc123"] :=
  doRPC_409_refresh (mkEnv TorrentRequestsRequest
      [.ok resp409abc, .ok (respEnvelope successEmptyEnvelope)])
    decodeTorrentRequestsResponse tDemo reqDemo "body" rDemo resp409abc "abc123"
    rfl rfl rfl rfl rfl

/-- C3: when the first response is a 409 whose session header is absent,
or present with a number of values different from one, the call returns
an error, sends no second request, and leaves the client state
unchanged. -/
theorem doRPC_409_malformed_header {α ρ : Type} (env : Env ρ)
    (decode : Json → Except String α) (t : Transmission) (req : ρ) (b : String)
    (r : HttpRequest) (resp : HttpResponse) (hm : env.marshal req = .ok b)
    (hn : env.newRequest t.address b = .ok r)
    (hs : env.send 0 (buildRequest t r) = .ok resp) (h409 : resp.statusCode = 409)
    (hbad : lookupHeader resp.headers csrfSessionHeader = none ∨
      ∃ vs, lookupHeader resp.headers csrfSessionHeader = some vs ∧ vs.length ≠ 1) :
    (∃ e, (doRPC env decode t req).1 = .error e) ∧
    (doRPC env decode t req).2.2 = [buildRequest t r] ∧
    (doRPC env decode t req).2.1 = t := by
  rcases hbad with hnone | ⟨vs, hvs, hlen⟩
  · rw [doRPC_409_noHeader env decode t req b r resp hm hn hs h409 hnone]
    exact ⟨⟨_, rfl⟩, rfl, rfl⟩
  · rw [doRPC_409_badHeader env decode t req b r resp vs hm hn hs h409 hvs hlen]
    exact ⟨⟨_, rfl⟩, rfl, rfl⟩

/-- Witness for C3: a 409 first response with no session header fails
the call after a single request and does not touch the client state. -/
theorem doRPC_409_malformed_header_witness :
    resp409NoHeader.statusCode = 409 ∧
    lookupHeader resp409NoHeader.headers csrfSessionHeader = none ∧
    ((∃ e, (doRPC (mkEnv TorrentRequestsRequest [.ok resp409NoHeader])
        decodeTorrentRequestsResponse tDemo reqDemo).1 = .error e) ∧
      (doRPC (mkEnv TorrentRequestsRequest [.ok resp409NoHeader])
        decodeTorrentRequestsResponse tDemo reqDemo).2.2 = [qDemo ""] ∧
      (doRPC (mkEnv TorrentRequestsRequest [.ok resp409NoHeader])
        decodeTorrentRequestsResponse tDemo reqDemo).2.1 = tDemo) :=
  ⟨rfl, rfl,
    doRPC_409_malformed_header (mkEnv TorrentRequestsRequest [.ok resp409NoHeader])
      decodeTorrentRequestsResponse tDemo reqDemo "body" rDemo resp409NoHeader
      rfl rfl rfl rfl (Or.inl rfl)⟩

/-- C7: a successful listing response is returned exactly as the daemon
ordered it, with no sorting and no deduplication: whatever torrent list
the envelope decodes to is handed back unchanged. The witness evaluates
this on the two-torrent example, where every field not present in the
response JSON keeps its zero value. -/
theorem ListAll_preserves_order (env : Env GetRequest) (t : Transmission) (b : String)
    (r : HttpRequest) (resp : HttpResponse) (j : Json) (tg : Int)
    (ts : List (Option Torrent)) (hm : env.marshal listAllRequest = .ok b)
    (hn : env.newRequest t.address b = .ok r)
    (hs : env.send 0 (buildRequest t r) = .ok resp) (h409 : resp.statusCode ≠ 409)
    (hb : env.readBody resp = .ok j)
    (hd : decodeGetResponse j =
      .ok { base := some { result := "success", tag := tg },
            arguments := some { torrents := ts } }) :
    ListAll env t = (.ok ts, t, [buildRequest t r]) := by
  unfold ListAll
  rw [doRPC_no409 env decodeGetResponse t listAllRequest b r resp hm hn hs h409]
  unfold finishRPC
  rw [hb]
  dsimp only
  rw [hd]
  dsimp only
  rw [if_neg (fun h => h rfl)]

/-- Witness for C7: the listing response with torrents id 1 name a
status 4 and id 2 name b status 16 yields exactly those two records in
that order, all other fields at their zero values. -/
theorem ListAll_preserves_order_witness :
    ListAll (mkEnv GetRequest [.ok (respEnvelope listDemoBody)]) tDemo =
      (.ok [some torrentA, some torrentB], tDemo, [qDemo ""]) ∧
    torrentA = { id := 1, name := "a", status := 4 } ∧
    torrentB = { id := 2, name := "b", status := 16 } :=
  ⟨ListAll_preserves_order (mkEnv GetRequest [.ok (respEnvelope listDemoBody)]) tDemo
      "body" rDemo (respEnvelope listDemoBody) listDemoBody 1
      [some torrentA, some torrentB] rfl rfl rfl (by decide) rfl rfl,
    rfl, rfl⟩

/-- C10: a body that decodes successfully with result equal to the
success sentinel but no arguments object makes ListAll dereference the
nil arguments record: the success path panics instead of returning. -/
theorem ListAll_nil_arguments_panics (env : Env GetRequest) (t : Transmission)
    (b : String) (r : HttpRequest) (resp : HttpResponse) (j : Json) (tg : Int)
    (hm : env.marshal listAllRequest = .ok b) (hn : env.newRequest t.address b = .ok r)
    (hs : env.send 0 (buildRequest t r) = .ok resp) (h409 : resp.statusCode ≠ 409)
    (hb : env.readBody resp = .ok j)
    (hd : decodeGetResponse j =
      .ok { base := some { result := "success", tag := tg },
            arguments := none }) :
    ListAll env t = (.panic, t, [buildRequest t r]) := by
  unfold ListAll
  rw [doRPC_no409 env decodeGetResponse t listAllRequest b r resp hm hn hs h409]
  unfold finishRPC
  rw [hb]
  dsimp only
  rw [hd]
  dsimp only
  rw [if_neg (fun h => h rfl)]

/-- Witness for C10: a success envelope with no arguments object drives
ListAll into the nil dereference. -/
theorem ListAll_nil_arguments_panics_witness :
    ListAll (mkEnv GetRequest [.ok (respEnvelope successEmptyEnvelope)]) tDemo =
      (.panic, tDemo, [qDemo ""]) :=
  ListAll_nil_arguments_panics (mkEnv GetRequest [.ok (respEnvelope successEmptyEnvelope)])
    tDemo "body" rDemo (respEnvelope successEmptyEnvelope) successEmptyEnvelope 1
    rfl rfl rfl (by decide) rfl rfl

/-- Counterexample for C1: the claim says a 409 first response always
leads to exactly two POSTs, but a 409 whose session header is absent is
answered by exactly one POST: the call aborts without retrying. -/
theorem doRPC_409_two_posts_cex :
    (mkEnv TorrentRequestsRequest [.ok resp409NoHeader]).send 0 (qDemo "") =
      .ok resp409NoHeader ∧
    resp409NoHeader.statusCode = 409 ∧
    (doRPC (mkEnv TorrentRequestsRequest [.ok resp409NoHeader])
      decodeTorrentRequestsResponse tDemo reqDemo).2.2 = [qDemo ""] ∧
    (doRPC (mkEnv TorrentRequestsRequest [.ok resp409NoHeader])
      decodeTorrentRequestsResponse tDemo reqDemo).2.2.length ≠ 2 :=
  ⟨rfl, rfl, rfl, by decide⟩

/-- C1 (amended): once the request marshals and constructs, the call
never hands more than two requests to the transport; it hands over
exactly one unless the first response is a 409 carrying exactly one
session-header value, in which case it hands over exactly two, whatever
the second response is; a transport error or a 409 with a missing or
non-single-valued header stops after one. -/
theorem doRPC_post_count {α ρ : Type} (env : Env ρ) (decode : Json → Except String α)
    (t : Transmission) (req : ρ) (b : String) (r : HttpRequest)
    (hm : env.marshal req = .ok b) (hn : env.newRequest t.address b = .ok r) :
    (doRPC env decode t req).2.2.length ≤ 2 ∧
    (∀ e, env.send 0 (buildRequest t r) = .error e →
      (doRPC env decode t req).2.2.length = 1) ∧
    (∀ resp, env.send 0 (buildRequest t r) = .ok resp → resp.statusCode ≠ 409 →
      (doRPC env decode t req).2.2.length = 1) ∧
    (∀ resp v, env.send 0 (buildRequest t r) = .ok resp → resp.statusCode = 409 →
      lookupHeader resp.headers csrfSessionHeader = some [v] →
      (doRPC env decode t req).2.2.length = 2) ∧
    (∀ resp, env.send 0 (buildRequest t r) = .ok resp → resp.statusCode = 409 →
      lookupHeader resp.headers csrfSessionHeader = none →
      (doRPC env decode t req).2.2.length = 1) ∧
    (∀ resp vs, env.send 0 (buildRequest t r) = .ok resp → resp.statusCode = 409 →
      lookupHeader resp.headers csrfSessionHeader = some vs → vs.length ≠ 1 →
      (doRPC env decode t req).2.2.length = 1) := by
  have herr : ∀ e, env.send 0 (buildRequest t r) = .error e →
      (doRPC env decode t req).2.2.length = 1 := by
    intro e hs
    rw [doRPC_first_error env decode t req b r e hm hn hs]
    rfl
  have hok : ∀ resp, env.send 0 (buildRequest t r) = .ok resp → resp.statusCode ≠ 409 →
      (doRPC env decode t req).2.2.length = 1 := by
    intro resp hs hne
    rw [doRPC_no409 env decode t req b r resp hm hn hs hne,
      finishRPC_trace env decode t resp [buildRequest t r]]
    rfl
  have hretry : ∀ resp v, env.send 0 (buildRequest t r) = .ok resp →
      resp.statusCode = 409 → lookupHeader resp.headers csrfSessionHeader = some [v] →
      (doRPC env decode t req).2.2.length = 2 := by
    intro resp v hs h409 hlook
    rw [doRPC_retry env decode t req b r resp v hm hn hs h409 hlook]
    cases h₂ : env.send 1 (buildRequest { t with sessionId := v } r) with
    | error e => rfl
    | ok resp₁ =>
      rw [finishRPC_trace env decode { t with sessionId := v } resp₁
        [buildRequest t r, buildRequest { t with sessionId := v } r]]
      rfl
  have hnone : ∀ resp, env.send 0 (buildRequest t r) = .ok resp → resp.statusCode = 409 →
      lookupHeader resp.headers csrfSessionHeader = none →
      (doRPC env decode t req).2.2.length = 1 := by
    intro resp hs h409 hlook
    rw [doRPC_409_noHeader env decode t req b r resp hm hn hs h409 hlook]
    rfl
  have hbad : ∀ resp vs, env.send 0 (buildRequest t r) = .ok resp →
      resp.statusCode = 409 → lookupHeader resp.headers csrfSessionHeader = some vs →
      vs.length ≠ 1 → (doRPC env decode t req).2.2.length = 1 := by
    intro resp vs hs h409 hlook hlen
    rw [doRPC_409_badHeader env decode t req b r resp vs hm hn hs h409 hlook hlen]
    rfl
  refine ⟨?_, herr, hok, hretry, hnone, hbad⟩
  cases hs : env.send 0 (buildRequest t r) with
  | error e =>
    rw [herr e hs]
    omega
  | ok resp =>
    by_cases h409 : resp.statusCode = 409
    · cases hlook : lookupHeader resp.headers csrfSessionHeader with
      | none =>
        rw [hnone resp hs h409 hlook]
        omega
      | some vs =>
        match vs, hlook with
        | [], hlook =>
          rw [hbad resp [] hs h409 hlook (by decide)]
          omega
        | [v], hlook =>
          rw [hretry resp v hs h409 hlook]
        | v :: v' :: rest, hlook =>
          rw [hbad resp (v :: v' :: rest) hs h409 hlook (by simp)]
          omega
    · rw [hok resp hs h409]
      omega

/-- Witness for C1: a 409 first response with a single-valued session
header produces exactly two POSTs, and a non-409 first response produces
exactly one. -/
theorem doRPC_post_count_witness :
    (doRPC (mkEnv TorrentRequestsRequest
        [.ok resp409abc, .ok (respEnvelope successEmptyEnvelope)])
      decodeTorrentRequestsResponse tDemo reqDemo).2.2.length = 2 ∧
    (doRPC (mkEnv TorrentRequestsRequest [.ok (respEnvelope successEmptyEnvelope)])
      decodeTorrentRequestsResponse tDemo reqDemo).2.2.length = 1 :=
  ⟨(doRPC_post_count (mkEnv TorrentRequestsRequest
        [.ok resp409abc, .ok (respEnvelope successEmptyEnvelope)])
      decodeTorrentRequestsResponse tDemo reqDemo "body" rDemo rfl rfl).2.2.2.1
      resp409abc "abc123" rfl rfl rfl,
    (doRPC_post_count (mkEnv TorrentRequestsRequest
        [.ok (respEnvelope successEmptyEnvelope)])
      decodeTorrentRequestsResponse tDemo reqDemo "body" rDemo rfl rfl).2.2.1
      (respEnvelope successEmptyEnvelope) rfl (by decide)⟩

end TransmissionGoApi
